import Mathlib

/-!
Shallow embedding of `src/search.py` (class `BayesianSearchCV` of AutOpt).

Conventions of the embedding:
* Python numbers are modelled exactly: `int` as `Int`, `float` as `ℚ`
  (the claims under study never depend on binary rounding of floats,
  infinities or NaN); `numpy` float entries are likewise `ℚ`.
* Fallible Python code is modelled in `Except PyError`; each raise site
  carries the exception class and, where the claims depend on it, the
  message string of the source.
* Stateful code (`_Report`) is explicit state passing over `ReportState`.
* Side effects that no claim observes (the verbose progress printing in
  `_Report.update`) are omitted; the `verbose` field is kept in the state
  for fidelity but drives nothing.
-/

namespace AutOpt

/-- Python exception values raised by the embedded code.  `keyError` carries
the missing key, the others carry the message of the `raise` site. -/
inductive PyError where
  | typeError (msg : String)
  | valueError (msg : String)
  | keyError (key : String)
  | indexError (msg : String)
deriving DecidableEq, Repr

instance {ε α : Type} [DecidableEq ε] [DecidableEq α] : DecidableEq (Except ε α)
  | .error e, .error f =>
      if h : e = f then .isTrue (by rw [h])
      else .isFalse (fun c => h (Except.error.inj c))
  | .error _, .ok _ => .isFalse (fun c => Except.noConfusion c)
  | .ok _, .error _ => .isFalse (fun c => Except.noConfusion c)
  | .ok a, .ok b =>
      if h : a = b then .isTrue (by rw [h])
      else .isFalse (fun c => h (Except.ok.inj c))

/-- Python scalar values that flow through parameter decoding: `int`,
`float` (exact rational) and `str`. -/
inductive Val where
  | int (n : Int)
  | float (q : ℚ)
  | str (s : String)
deriving DecidableEq, Repr

/-- Embeds `BayesianSearchCV._check_int`: a `float` that compares equal to
its truncation to `int` (i.e. an integral rational, `den = 1`) is coerced
to that integer; every other value is returned unchanged. -/
def check_int : Val → Val
  | .float q => if q.den = 1 then .int q.num else .float q
  | v => v

/-- Resolution of the `init_trials` argument performed by the
`if not init_trials` guard of `_check_trials`: Python falsiness holds for
`None` (`none`) and `0`, and a falsy value is replaced by the parameter
count. -/
def resolved_init (init_trials : Option Int) (n_params : Nat) : Int :=
  if init_trials = none ∨ init_trials = some 0 then (n_params : Int)
  else init_trials.getD 0

/-- Resolution of the `n_iter` argument performed by the `if not n_iter`
guard of `_check_trials`: a falsy value is replaced by five times the
parameter count. -/
def resolved_n_iter (n_iter : Option Int) (n_params : Nat) : Int :=
  if n_iter = none ∨ n_iter = some 0 then 5 * (n_params : Int)
  else n_iter.getD 0

/-- Embeds `BayesianSearchCV._check_trials`.  Arguments `n_iter` and
`init_trials` are `Option Int` (`none` = Python `None`).  Returns
`(n_iter, init_trials)` after resolution, or raises the `ValueError` of
the corresponding check (the second message reproduces the source's
missing space between the two string literals). -/
def check_trials (n_iter init_trials : Option Int) (n_params : Nat) :
    Except PyError (Int × Int) :=
  let init : Int := resolved_init init_trials n_params
  let ni : Int := resolved_n_iter n_iter n_params
  if init ≥ ni then
    .error (.valueError "Total number of iterations should be higher than the number of initial trials")
  else if init < (n_params : Int) then
    .error (.valueError "Number of initial trials should be at leastequal to the number of search params")
  else
    .ok (ni, init)

/-- Python values that can be passed as the `scoring` argument: a metric
name string, an opaque callable (tagged by a name), a bool, an int, or a
mapping (association list, keys unique as in a Python dict). -/
inductive ScoringArg where
  | str (s : String)
  | func (name : String)
  | bool (b : Bool)
  | int (n : Int)
  | dict (entries : List (String × ScoringArg))

/-- Python subscript `v[key]` with a string key, as used on the value found
under `'scoring'`: a dict looks the key up (raising `KeyError` when it is
absent), a string raises the string-indices `TypeError`, and the other
scalars are not subscriptable. -/
def py_subscript (v : ScoringArg) (key : String) : Except PyError ScoringArg :=
  match v with
  | .dict m =>
      match m.lookup key with
      | some x => .ok x
      | none => .error (.keyError key)
  | .str _ => .error (.typeError "string indices must be integers")
  | _ => .error (.typeError "object is not subscriptable")

/-- Embeds `BayesianSearchCV._get_scoring`.  A string resolves `maximize`
from its suffix; a mapping first rebinds `scoring` to `scoring['scoring']`
and then reads `maximize` from that inner value (`scoring['maximize']` is
evaluated on the rebound name — faithful to the source, see the docstring
of the class which documents `{'scoring': callable, 'maximize': True}`);
anything else raises `ValueError('Invalid scoring')`.  Returns the pair
`(scoring, maximize)` as Python values. -/
def get_scoring (scoring : ScoringArg) : Except PyError (ScoringArg × ScoringArg) :=
  match scoring with
  | .str s =>
      if s.endsWith "loss" ∨ s.endsWith "error"
      then .ok (.str s, .bool false)
      else .ok (.str s, .bool true)
  | .dict m =>
      match m.lookup "scoring" with
      | none => .error (.keyError "scoring")
      | some inner =>
          match py_subscript inner "maximize" with
          | .error e => .error e
          | .ok maxv => .ok (inner, maxv)
  | _ => .error (.valueError "Invalid scoring")

/-- A user-supplied domain for one parameter, as inspected by
`_check_bounds`: an object with an `rvs` sampling method (modelled by its
deterministic sample stream `Nat → List Val`), a Python `list`, a non-list
iterable such as a tuple, or a non-iterable scalar (an `int` or `float`;
Python strings are iterable and therefore never reach the scalar branch,
so they are not placed here). -/
inductive DomainSpec where
  | distr (sample : Nat → List Val)
  | pylist (l : List Val)
  | ptuple (l : List Val)
  | scalar (v : Val)

/-- The runtime value stored under the `'domain'` key of a bound after
translation: still a Python list, a non-list iterable kept as-is, or a
numpy `arange` array produced by `check_str`. -/
inductive Dom where
  | plist (l : List Val)
  | ptuple (l : List Val)
  | ndarray (l : List Val)

/-- A bound dict as built by `param_to_bound` / returned by `check_bound`:
`domain = none` models the `'domain'` key being absent (the source's
`param_to_bound` silently omits it when the value is neither a
distribution nor an iterable). -/
structure RawBound where
  name : String
  type : String
  domain : Option Dom

/-- An explicit bound descriptor supplied by the user in the list form of
the grid; each required key may be missing. -/
structure BoundDict where
  name : Option String
  type : Option String
  domain : Option DomainSpec

/-- Embeds the inner `param_to_bound` of `_check_bounds` (mapping form):
builds `{'name': .., 'type': 'discrete'}` and sets `'domain'` from a
distribution (sampled, `distr_to_discrete` returns a list) or an iterable;
for any other value the key is simply never set. -/
def param_to_bound (name : String) (value : DomainSpec) (n_samples : Nat) : RawBound :=
  { name := name, type := "discrete",
    domain :=
      match value with
      | .distr sample => some (.plist (sample n_samples))
      | .pylist l => some (.plist l)
      | .ptuple l => some (.ptuple l)
      | .scalar _ => none }

/-- Embeds the inner `check_bound` of `_check_bounds` (list form): requires
the keys `name`, `type`, `domain`; a distribution domain is sampled and the
type forced to `'discrete'`; an iterable domain is kept; anything else
raises the domain `TypeError`. -/
def check_bound (bound : BoundDict) (n_samples : Nat) : Except PyError RawBound :=
  match bound.name, bound.type, bound.domain with
  | some nm, some ty, some dom =>
      match dom with
      | .distr sample => .ok { name := nm, type := "discrete", domain := some (.plist (sample n_samples)) }
      | .pylist l => .ok { name := nm, type := ty, domain := some (.plist l) }
      | .ptuple l => .ok { name := nm, type := ty, domain := some (.ptuple l) }
      | .scalar _ => .error (.typeError "Domain is not iterable or Distribution")
  | _, _, _ => .error (.typeError "Bound definition is not complete")

/-- True exactly on Python strings, the predicate of
`any(isinstance(s, str) for s in bound['domain'])`. -/
def Val.is_string : Val → Bool
  | .str _ => true
  | _ => false

/-- Embeds the inner `check_str` of `_check_bounds`.  It reads
`bound['domain']` (raising `KeyError` when the key is absent); when that
value is a Python list containing at least one string it records the
original list in the categorical table (`str_configs`, threaded explicitly
here) and replaces the domain by `np.arange(len(domain))`. -/
def check_str (str_configs : List (String × List Val)) (bound : RawBound) :
    Except PyError (RawBound × List (String × List Val)) :=
  match bound.domain with
  | none => .error (.keyError "domain")
  | some (.plist l) =>
      if l.any Val.is_string then
        .ok ({ bound with domain := some (.ndarray ((List.range l.length).map (fun i => .int i))) },
             str_configs ++ [(bound.name, l)])
      else .ok (bound, str_configs)
  | some _ => .ok (bound, str_configs)

/-- The top-level `param_grid` argument: a mapping (insertion-ordered, as a
Python dict), a list of explicit bound descriptors, or anything else. -/
inductive Grid where
  | map (entries : List (String × DomainSpec))
  | lst (bounds : List BoundDict)
  | other

/-- Embeds `BayesianSearchCV._check_bounds`: translates the grid into the
list of bounds plus the categorical table, in input order, raising
`TypeError('Invalid grid type')` for any other top-level type. -/
def check_bounds (candidate : Grid) (n_samples : Nat) :
    Except PyError (List RawBound × List (String × List Val)) :=
  match candidate with
  | .map entries =>
      entries.foldlM (fun acc e => do
        let r ← check_str acc.2 (param_to_bound e.1 e.2 n_samples)
        pure (acc.1 ++ [r.1], r.2)) (([], []) : List RawBound × List (String × List Val))
  | .lst bs =>
      bs.foldlM (fun acc bd => do
        let rb ← check_bound bd n_samples
        let r ← check_str acc.2 rb
        pure (acc.1 ++ [r.1], r.2)) (([], []) : List RawBound × List (String × List Val))
  | .other => .error (.typeError "Invalid grid type")

/-- Python list subscription `l[v]` as used in
`self._str_params[param_name][self._check_int(picked_value)]`: an `int`
index is accepted (with Python's negative-index wrap-around), any other
type raises the list-indices `TypeError`. -/
def py_list_index (l : List Val) (v : Val) : Except PyError Val :=
  match v with
  | .int i =>
      let j : Int := if i < 0 then i + l.length else i
      if 0 ≤ j ∧ j < l.length then .ok (l.getD j.toNat (.int 0))
      else .error (.indexError "list index out of range")
  | .float _ => .error (.typeError "list indices must be integers or slices, not float")
  | .str _ => .error (.typeError "list indices must be integers or slices, not str")

/-- Recursion of `get_feed_params` over the bounds, carrying the position
`i` into the optimizer row (`next_set[0, i]`, raising `IndexError` past the
row's width) and the params association list built so far. -/
def feed_params_go (str_params : List (String × List Val)) (row : List Val) :
    List RawBound → Nat → List (String × Val) → Except PyError (List (String × Val))
  | [], _, params => .ok params
  | b :: rest, i, params =>
      match row.get? i with
      | none => .error (.indexError "index out of bounds for axis 1")
      | some picked =>
          match str_params.lookup b.name with
          | some strs =>
              match py_list_index strs (check_int picked) with
              | .error e => .error e
              | .ok v => feed_params_go str_params row rest (i + 1) (params ++ [(b.name, check_int v)])
          | none => feed_params_go str_params row rest (i + 1) (params ++ [(b.name, check_int picked)])

/-- Embeds `BayesianSearchCV._get_feed_params`: decodes one optimizer row
into the parameter mapping, looking categorical parameters up in the
categorical table and passing every value through `_check_int`.  The
resulting Python dict is modelled as an association list in insertion
order (parameter names are unique, as the keys of the input grid). -/
def get_feed_params (str_params : List (String × List Val)) (bounds : List RawBound)
    (row : List Val) : Except PyError (List (String × Val)) :=
  feed_params_go str_params row bounds 0 []

/-- Numpy `np.mean` over an array of exact rationals. -/
def np_mean (l : List ℚ) : ℚ := l.sum / l.length

/-- Population variance, the quantity under the square root of `np.std`. -/
def np_var (l : List ℚ) : ℚ := np_mean (l.map (fun x => (x - np_mean l) ^ 2))

/-- Numpy `np.std`.  The floating-point square root is modelled by
`Rat.sqrt`, which is exact whenever the variance is a perfect square (in
particular on the constant fold vectors used in the concrete runs below,
where the variance is `0`); no claim in this development depends on the
value of a standard deviation, only on where it is stored. -/
def np_std (l : List ℚ) : ℚ := Rat.sqrt (np_var l)

/-- One cell of the object-dtype `params` buffer: `np.zeros(s, dtype=object)`
fills it with the scalar `0`, and `update` overwrites cells with parameter
dicts. -/
inductive ObjCell where
  | zero
  | params (p : List (String × Val))
deriving DecidableEq, Repr

/-- Numpy `np.put(l, i, v)` in its default `raise` mode: writes in place at
a valid index and raises `IndexError` otherwise. -/
def np_put {α : Type} (l : List α) (i : Nat) (v : α) : Except PyError (List α) :=
  if i < l.length then .ok (l.set i v) else .error (.indexError "index out of bounds")

/-- Numpy column assignment `m[:, i] = v` on a 2-D array: the column index
must be in range of every row, and the assigned vector must match the
number of rows (shape broadcast). -/
def np_set_column (m : List (List ℚ)) (i : Nat) (v : List ℚ) :
    Except PyError (List (List ℚ)) :=
  if m.all (fun r => i < r.length) then
    if v.length = m.length then .ok ((m.zip v).map (fun p => p.1.set i p.2))
    else .error (.valueError "could not broadcast input array")
  else .error (.indexError "index out of bounds")

/-- The in-place `ndarray.resize(n)` method: keeps the existing data and
zero-fills the new cells (here `z` is the zero of the dtype; the `params`
buffer of object dtype is padded with cells no claim ever reads). -/
def ndarray_resize {α : Type} (l : List α) (n : Nat) (z : α) : List α :=
  (l ++ List.replicate (n - l.length) z).take n

/-- The `cross_validate` outcome dict consumed by `_Report.update`: per-fold
fit times, score times and test scores. -/
structure CVScores where
  fit_time : List ℚ
  score_time : List ℚ
  test_score : List ℚ
deriving DecidableEq, Repr

/-- State of `BayesianSearchCV._Report`.  The `cv` argument of the source
constructor may also be a splitter object, in which case `cv.get_n_splits()`
is taken; the embedding models the resulting fold count directly.  The
`verbose` field only drives the progress printing, omitted here. -/
structure ReportState where
  iter : Nat
  t : ℚ
  s : Nat
  cv : Nat
  verbose : Nat
  best_score_ : Option ℚ
  best_params_ : Option ObjCell
  mean_fit_time : List ℚ
  std_fit_time : List ℚ
  mean_score_time : List ℚ
  std_score_time : List ℚ
  params : List ObjCell
  test_scores : List (List ℚ)
  mean_test_score : List ℚ
  std_test_score : List ℚ
deriving DecidableEq, Repr

/-- Embeds `_Report.__init__` (the source defaults are `s=100`, `verbose=0`;
the search constructor always builds `_Report(cv=cv, verbose=verbose)`,
hence capacity 100). -/
def report_init (cv s verbose : Nat) : ReportState :=
  { iter := 0, t := 0, s := s, cv := cv, verbose := verbose,
    best_score_ := none, best_params_ := none,
    mean_fit_time := List.replicate s 0,
    std_fit_time := List.replicate s 0,
    mean_score_time := List.replicate s 0,
    std_score_time := List.replicate s 0,
    params := List.replicate s ObjCell.zero,
    test_scores := List.replicate cv (List.replicate s 0),
    mean_test_score := List.replicate s 0,
    std_test_score := List.replicate s 0 }

/-- The growth block of `_Report.update`: `self.s = 2*self.s`, then each
1-D buffer is `resize`d in place to the new capacity (zero-filled), and
`test_scores` is `np.hstack`ed with a zero block of its own shape, so each
row doubles in length. -/
def report_grow (st : ReportState) : ReportState :=
  let s2 := 2 * st.s
  { st with
    s := s2,
    mean_fit_time := ndarray_resize st.mean_fit_time s2 0,
    std_fit_time := ndarray_resize st.std_fit_time s2 0,
    mean_score_time := ndarray_resize st.mean_score_time s2 0,
    std_score_time := ndarray_resize st.std_score_time s2 0,
    params := ndarray_resize st.params s2 ObjCell.zero,
    mean_test_score := ndarray_resize st.mean_test_score s2 0,
    std_test_score := ndarray_resize st.std_test_score s2 0,
    test_scores := st.test_scores.map (fun r => r ++ List.replicate r.length 0) }

/-- Embeds `_Report.update`: writes the fold statistics of one completed
iteration at index `iter` of every buffer, advances the iteration counter
and the cumulative time, and doubles the capacity when the counter reaches
`s - 1` (one slot before the buffers are actually full).  The verbose
progress printing of the source is a pure side effect and is omitted. -/
def update (st : ReportState) (params : List (String × Val)) (scores : CVScores)
    (exec_time : ℚ) : Except PyError ReportState := do
  let mft ← np_put st.mean_fit_time st.iter (np_mean scores.fit_time)
  let sft ← np_put st.std_fit_time st.iter (np_std scores.fit_time)
  let msc ← np_put st.mean_score_time st.iter (np_mean scores.score_time)
  let ssc ← np_put st.std_score_time st.iter (np_std scores.score_time)
  let ps ← np_put st.params st.iter (ObjCell.params params)
  let mts ← np_put st.mean_test_score st.iter (np_mean scores.test_score)
  let sts ← np_put st.std_test_score st.iter (np_std scores.test_score)
  let tss ← np_set_column st.test_scores st.iter scores.test_score
  let st1 : ReportState := { st with
    mean_fit_time := mft, std_fit_time := sft,
    mean_score_time := msc, std_score_time := ssc,
    params := ps, mean_test_score := mts, std_test_score := sts,
    test_scores := tss,
    iter := st.iter + 1, t := st.t + exec_time }
  if st1.iter = st1.s - 1 then pure (report_grow st1) else pure st1

/-- The `np.resize` FUNCTION (unlike the method, it repeats the data
cyclically when enlarging, returns a fresh array, and raises `ValueError`
on a negative size — the error `report()` hits when `iter - 1 < 0`). -/
def np_resize {α : Type} (l : List α) (z : α) (n : Int) : Except PyError (List α) :=
  if n < 0 then .error (.valueError "all elements of new_shape must be non-negative")
  else if l.length = 0 then .ok (List.replicate n.toNat z)
  else .ok ((List.range n.toNat).map (fun i => l.getD (i % l.length) z))

/-- Insertion step of the index sort below: an index is inserted after all
indices of smaller-or-equal value, keeping equal values in first-come
order. -/
def argsort_insert (vals : List ℚ) (i : Nat) : List Nat → List Nat
  | [] => [i]
  | j :: rest =>
      if vals.getD i 0 < vals.getD j 0 then i :: j :: rest
      else j :: argsort_insert vals i rest

/-- Numpy `argsort` (ascending).  Numpy's default kind is an unstable
introsort, so the order among equal values is unspecified there; the model
commits to the stable order, under which the last sorted position is the
last-seen index among the maxima.  No claim settled in this development
depends on tie order. -/
def np_argsort (vals : List ℚ) : List Nat :=
  (List.range vals.length).foldl (fun acc i => argsort_insert vals i acc) []

/-- Python `l[-1]`: the last element, `IndexError` on an empty list. -/
def py_last {α : Type} (l : List α) : Except PyError α :=
  match l.getLast? with
  | some x => .ok x
  | none => .error (.indexError "index -1 is out of bounds for axis 0 with size 0")

/-- The `cv_results` dict built by `_Report.report()`; the per-fold columns
`split0_test_score, split1_test_score, ...` are collected in fold order in
`split_test_score`. -/
structure CvResults where
  mean_fit_time : List ℚ
  std_fit_time : List ℚ
  mean_score_time : List ℚ
  std_score_time : List ℚ
  params : List ObjCell
  mean_test_score : List ℚ
  std_test_score : List ℚ
  split_test_score : List (List ℚ)
deriving DecidableEq, Repr

/-- Embeds `_Report.report()`: sets `s = self.iter - 1` (a Python int,
negative when no iteration completed), trims every column to that length
with the `np.resize` function, builds the per-fold columns, and selects the
best entry as `scores.flatten().argsort()[-1]`.  The source resizes
`params` and `mean_test_score` a second time for the best-selection — the
results are identical, so the embedding reuses the columns.  Returns the
`cv_results` table together with the state carrying `best_score_` and
`best_params_` (the source stores them on `self`). -/
def report (st : ReportState) : Except PyError (CvResults × ReportState) := do
  let s : Int := (st.iter : Int) - 1
  let mft ← np_resize st.mean_fit_time 0 s
  let sft ← np_resize st.std_fit_time 0 s
  let msc ← np_resize st.mean_score_time 0 s
  let ssc ← np_resize st.std_score_time 0 s
  let ps ← np_resize st.params ObjCell.zero s
  let mts ← np_resize st.mean_test_score 0 s
  let sts ← np_resize st.std_test_score 0 s
  let splits ← (List.range st.cv).mapM (fun c => np_resize (st.test_scores.getD c []) 0 s)
  let best_idx ← py_last (np_argsort mts)
  let best_params := ps.getD best_idx ObjCell.zero
  let best_score := mts.getD best_idx 0
  pure ({ mean_fit_time := mft, std_fit_time := sft, mean_score_time := msc,
          std_score_time := ssc, params := ps, mean_test_score := mts,
          std_test_score := sts, split_test_score := splits },
        { st with best_score_ := some best_score, best_params_ := some best_params })

/-- Fold outcome used by the concrete runs below: one cross-validation fold
whose fit and score times are `1` and whose test score is `q` (the fold
vectors are constant, so every standard deviation is exactly `0`). -/
def demo_scores (q : ℚ) : CVScores :=
  { fit_time := [1], score_time := [1], test_score := [q] }

/-- Parameter dict of the `k`-th concrete iteration. -/
def demo_params (k : Int) : List (String × Val) := [("p", Val.int k)]

/-- Runs one `update` per mean test score in `qs` against the accumulator
state `st0`, recording `demo_params k` for the `k`-th record. -/
def demo_run_from (st0 : ReportState) (qs : List ℚ) : Except PyError ReportState :=
  (qs.zip (List.range qs.length)).foldlM
    (fun st p => update st (demo_params (p.2 : Int)) (demo_scores p.1) 1) st0

/-- A concrete accumulator run from a fresh `_Report` with one fold and
capacity 10. -/
def demo_run (qs : List ℚ) : Except PyError ReportState :=
  demo_run_from (report_init 1 10 0) qs

/-- Well-formedness of an accumulator state: every pre-allocated buffer has
the capacity recorded in `s`, and the score matrix has one row per fold.
This is established by `report_init` and maintained by `update`. -/
def report_wf (st : ReportState) : Prop :=
  st.mean_fit_time.length = st.s ∧ st.std_fit_time.length = st.s ∧
  st.mean_score_time.length = st.s ∧ st.std_score_time.length = st.s ∧
  st.params.length = st.s ∧ st.mean_test_score.length = st.s ∧
  st.std_test_score.length = st.s ∧ st.test_scores.length = st.cv ∧
  (∀ r ∈ st.test_scores, r.length = st.s)

instance (st : ReportState) : Decidable (report_wf st) := by
  unfold report_wf; infer_instance

/-- Record `i` reads the same in states `st` and `st'`: every statistic
column, the parameter cell, and the per-fold score column agree at index
`i`. -/
def row_unchanged (st st' : ReportState) (i : Nat) : Prop :=
  st'.mean_fit_time.getD i 0 = st.mean_fit_time.getD i 0 ∧
  st'.std_fit_time.getD i 0 = st.std_fit_time.getD i 0 ∧
  st'.mean_score_time.getD i 0 = st.mean_score_time.getD i 0 ∧
  st'.std_score_time.getD i 0 = st.std_score_time.getD i 0 ∧
  st'.params.getD i ObjCell.zero = st.params.getD i ObjCell.zero ∧
  st'.mean_test_score.getD i 0 = st.mean_test_score.getD i 0 ∧
  st'.std_test_score.getD i 0 = st.std_test_score.getD i 0 ∧
  st'.test_scores.map (fun r => r.getD i 0) = st.test_scores.map (fun r => r.getD i 0)

/-- C1: the claim states that after `n ≥ 1` updates `report()` returns a
table with exactly `n` rows per column.  The code instead sets
`s = self.iter - 1`, so it raises an `IndexError` after a single update
(best-selection indexes `[-1]` into an empty argsort) and returns `n - 1`
rows after `n = 2` updates — the last completed iteration's record is
dropped, not an in-progress slot. -/
theorem C1_report_drops_last_completed_iteration :
    (demo_run [1/2] >>= report)
      = .error (.indexError "index -1 is out of bounds for axis 0 with size 0")
  ∧ ((demo_run [1/2, 3/4] >>= report).toOption.map
      (fun r => [r.1.mean_fit_time.length, r.1.std_fit_time.length,
                 r.1.mean_score_time.length, r.1.std_score_time.length,
                 r.1.params.length, r.1.mean_test_score.length,
                 r.1.std_test_score.length] ++ r.1.split_test_score.map List.length))
      = some [1, 1, 1, 1, 1, 1, 1, 1]
  ∧ (1 : Nat) ≠ 2 := by
  refine ⟨by with_unfolding_all decide, by with_unfolding_all decide, by decide⟩

/-- C2: on records with mean scores `[0.7, 0.9, 0.85]` the code does
return `best_score_ = 0.9` with the second record's parameters — but only
because the dropped record is the worst one.  On `[0.7, 0.85, 0.9]` the
maximum recorded mean score is `0.9`, yet `report()` drops the last record
before selecting and returns `0.85`, refuting the claim that `best_score_`
equals the maximum recorded mean test score. -/
theorem C2_best_selection_ignores_last_record :
    ((demo_run [7/10, 9/10, 17/20] >>= report).toOption.map
        (fun r => (r.2.best_score_, r.2.best_params_)))
      = some (some (9/10), some (.params (demo_params 1)))
  ∧ ((demo_run [7/10, 17/20, 9/10] >>= report).toOption.map
        (fun r => (r.2.best_score_, r.2.best_params_)))
      = some (some (17/20), some (.params (demo_params 1)))
  ∧ (17/20 : ℚ) ≠ 9/10 := by
  refine ⟨by with_unfolding_all decide, by with_unfolding_all decide,
          by with_unfolding_all decide⟩

/-- C3 (counterexample): `report()` on an accumulator with zero completed
iterations does not return an empty report — it calls `np.resize` with
size `iter - 1 = -1`, which raises `ValueError`, contradicting the claim
that no error is raised. -/
theorem C3_zero_iteration_report_raises :
    report (report_init 5 100 0)
      = .error (.valueError "all elements of new_shape must be non-negative") := rfl

/-- C3 (amended): calling `report()` with zero completed iterations fails
with the negative-resize `ValueError`, for every fold count, capacity and
verbosity; no best entry is selected (the best fields are still unset). -/
theorem C3_zero_iteration_report_raises_general (cv s verbose : Nat) :
    report (report_init cv s verbose)
      = .error (.valueError "all elements of new_shape must be non-negative")
  ∧ (report_init cv s verbose).best_score_ = none
  ∧ (report_init cv s verbose).best_params_ = none :=
  ⟨rfl, rfl, rfl⟩

/-- C4: the suffix rules for scoring strings hold, and a non-string
non-mapping argument raises `ValueError('Invalid scoring')`; but a mapping
`{'scoring': f, 'maximize': b}` is NOT honored as given — the source
rebinds `scoring = scoring['scoring']` and then evaluates
`scoring['maximize']` on that inner value, so a callable scorer raises a
`TypeError` (not subscriptable) and a string scorer raises the
string-indices `TypeError`, instead of returning `maximize = b`.  This
contradicts the class docstring, which documents the dict template
`{'scoring': callable, 'maximize': True}`. -/
theorem C4_scoring_mapping_reads_maximize_from_inner_value :
    get_scoring (.str "neg_mean_squared_error")
      = .ok (.str "neg_mean_squared_error", .bool false)
  ∧ get_scoring (.str "roc_auc") = .ok (.str "roc_auc", .bool true)
  ∧ get_scoring (.str "log_loss") = .ok (.str "log_loss", .bool false)
  ∧ get_scoring (.int 3) = .error (.valueError "Invalid scoring")
  ∧ get_scoring (.dict [("scoring", .func "f"), ("maximize", .bool false)])
      = .error (.typeError "object is not subscriptable")
  ∧ get_scoring (.dict [("scoring", .str "accuracy"), ("maximize", .bool false)])
      = .error (.typeError "string indices must be integers") := by
  with_unfolding_all exact ⟨rfl, rfl, rfl, rfl, rfl, rfl⟩

/-- C5 (counterexample): decoding does not round to the nearest integer.
For the categorical parameter with stored list `["a", "b", "c"]`, the
optimizer value `1.4` should decode to `"b"` under the claim (nearest
integer `1`); the code passes `1.4` through `_check_int` unchanged (it is
not integral) and then uses it as a Python list index, raising
`TypeError`. -/
theorem C5_decode_nonintegral_float_raises :
    get_feed_params [("p", [.str "a", .str "b", .str "c"])]
      [{ name := "p", type := "discrete", domain := some (.ndarray [.int 0, .int 1, .int 2]) }]
      [.float (7/5)]
      = .error (.typeError "list indices must be integers or slices, not float") := by
  with_unfolding_all rfl

/-- C5 (amended): translation of a string-list domain records the original
ordered list in the categorical table and replaces the domain by the index
range `0..len-1`; decoding an integral optimizer value (the `int` `1` or
the float `1.0`) coerces it through `_check_int` and returns the string at
that index, so index `1` always yields the second string.  Decoding is a
pure function of its input here, hence trivially stable under repetition;
only non-integral floats (which the claim said would be rounded) fail. -/
theorem C5_categorical_roundtrip_integral (a b c : String) (n : Nat) :
    check_bounds (.map [("p", .pylist [.str a, .str b, .str c])]) n
      = .ok ([{ name := "p", type := "discrete",
                domain := some (.ndarray [.int 0, .int 1, .int 2]) }],
             [("p", [.str a, .str b, .str c])])
  ∧ get_feed_params [("p", [.str a, .str b, .str c])]
      [{ name := "p", type := "discrete", domain := some (.ndarray [.int 0, .int 1, .int 2]) }]
      [.int 1] = .ok [("p", .str b)]
  ∧ get_feed_params [("p", [.str a, .str b, .str c])]
      [{ name := "p", type := "discrete", domain := some (.ndarray [.int 0, .int 1, .int 2]) }]
      [.float 1] = .ok [("p", .str b)] :=
  ⟨rfl, rfl, rfl⟩

/-- C6 (counterexample): in the mapping input form, a domain that is
neither a distribution nor an iterable does not fail with the domain
`TypeError` — `param_to_bound` silently omits the `'domain'` key and the
subsequent `check_str` raises `KeyError('domain')` instead. -/
theorem C6_mapping_scalar_domain_raises_keyerror :
    check_bounds (.map [("p", .scalar (.int 5))]) 7 = .error (.keyError "domain")
  ∧ (PyError.keyError "domain")
      ≠ .typeError "Domain is not iterable or Distribution" :=
  ⟨rfl, by decide⟩

/-- C6 (amended): a non-iterable, non-distribution domain makes
translation fail in both input forms, but with different errors: the list
form raises the intended `TypeError('Domain is not iterable or
Distribution')` (the `InvalidDomainError` of the spec), while the mapping
form raises `KeyError('domain')` because `param_to_bound` never sets the
key. -/
theorem C6_scalar_domain_errors_by_input_form (name : String) (k : Int) (n : Nat) :
    check_bounds (.map [(name, .scalar (.int k))]) n = .error (.keyError "domain")
  ∧ check_bounds (.lst [{ name := some name, type := some "discrete",
                          domain := some (.scalar (.int k)) }]) n
      = .error (.typeError "Domain is not iterable or Distribution") :=
  ⟨rfl, rfl⟩

/-- C7: whenever the resolved trial counts satisfy
`init_trials >= n_iter` or `init_trials < n_params`, `_check_trials`
raises one of its two budget `ValueError`s; and the all-default resolution
(`init_trials = n_params`, `n_iter = 5 * n_params`) never raises for a
non-empty parameter space. -/
theorem C7_budget_validation (n_iter init_trials : Option Int) (n_params : Nat)
    (h : resolved_init init_trials n_params ≥ resolved_n_iter n_iter n_params
         ∨ resolved_init init_trials n_params < (n_params : Int))
    (hp : 1 ≤ n_params) :
    (check_trials n_iter init_trials n_params
        = .error (.valueError "Total number of iterations should be higher than the number of initial trials")
      ∨ check_trials n_iter init_trials n_params
        = .error (.valueError "Number of initial trials should be at leastequal to the number of search params"))
  ∧ check_trials none none n_params = .ok (5 * (n_params : Int), (n_params : Int)) := by
  constructor
  · by_cases hge : resolved_init init_trials n_params ≥ resolved_n_iter n_iter n_params
    · left; simp [check_trials, hge]
    · right
      have hlt : resolved_init init_trials n_params < (n_params : Int) := h.resolve_left hge
      simp [check_trials, hge, hlt]
  · have h1 : resolved_init none n_params = (n_params : Int) := rfl
    have h2 : resolved_n_iter none n_params = 5 * (n_params : Int) := rfl
    have hge : ¬ (resolved_init none n_params ≥ resolved_n_iter none n_params) := by
      rw [h1, h2]; omega
    have hlt : ¬ (resolved_init none n_params < (n_params : Int)) := by
      rw [h1]; omega
    simp [check_trials, hge, hlt, h1, h2]
    omega

/-- Witness for C7 at `n_iter = 3`, `init_trials = 5`, two search
parameters: the resolved values violate the budget (`5 >= 3`), so
construction raises, while the default resolution returns `(10, 2)`. -/
theorem C7_budget_validation_witness :
    (check_trials (some 3) (some 5) 2
        = .error (.valueError "Total number of iterations should be higher than the number of initial trials")
      ∨ check_trials (some 3) (some 5) 2
        = .error (.valueError "Number of initial trials should be at leastequal to the number of search params"))
  ∧ check_trials none none 2 = .ok (10, 2) :=
  C7_budget_validation (some 3) (some 5) 2 (by decide) (by decide)

/-- Helper for C10: with a falsy `init_trials` (Python `None` or `0`), the
resolved initial-trial count is exactly the parameter count, so the
`init_trials < n_params` check can never fire. -/
theorem check_trials_falsy_init_never_below_params (n_iter it : Option Int)
    (n_params : Nat) (hfal : it = none ∨ it = some 0) :
    check_trials n_iter it n_params
      ≠ .error (.valueError "Number of initial trials should be at leastequal to the number of search params") := by
  have hres : resolved_init it n_params = (n_params : Int) := by
    unfold resolved_init; rw [if_pos hfal]
  intro hcontra
  simp only [check_trials] at hcontra
  split at hcontra
  · injection hcontra with h
    injection h with h2
    exact absurd h2 (by decide)
  · split at hcontra
    · rename_i hlt
      rw [hres] at hlt
      exact absurd hlt (lt_irrefl _)
    · exact Except.noConfusion hcontra

/-- C10: passing `init_trials = 0` or `n_iter = 0` behaves exactly as
passing `None` — the falsy value is replaced by the default before the
budget checks — and in particular a falsy `init_trials` is never rejected
as being below the parameter count. -/
theorem C10_falsy_trial_arguments_take_defaults (n_iter init_trials : Option Int)
    (n_params : Nat) :
    check_trials n_iter (some 0) n_params = check_trials n_iter none n_params
  ∧ check_trials (some 0) init_trials n_params = check_trials none init_trials n_params
  ∧ check_trials n_iter (some 0) n_params
      ≠ .error (.valueError "Number of initial trials should be at leastequal to the number of search params")
  ∧ check_trials n_iter none n_params
      ≠ .error (.valueError "Number of initial trials should be at leastequal to the number of search params") :=
  ⟨rfl, rfl,
   check_trials_falsy_init_never_below_params n_iter (some 0) n_params (Or.inr rfl),
   check_trials_falsy_init_never_below_params n_iter none n_params (Or.inl rfl)⟩

/-- C8 (counterexample): the doubling is not triggered by the recorded
iterations exhausting the capacity `s`.  Starting from capacity 4, after
only 3 recorded iterations — strictly fewer than the capacity 4 the claim
says must be exhausted first — the capacity has already become 8: the
source grows when `iter == s - 1`, one slot early. -/
theorem C8_capacity_doubles_before_exhaustion :
    ((demo_run_from (report_init 1 4 0) [1/2, 3/4, 9/10]).toOption.map
        (fun st => (st.s, st.iter))) = some (8, 3)
  ∧ (3 : Nat) < 4 := by
  refine ⟨by with_unfolding_all decide, by decide⟩

/-- Helper: `np.put` succeeds on an in-range index and writes in place. -/
theorem np_put_ok {α : Type} (l : List α) (i : Nat) (v : α) (h : i < l.length) :
    np_put l i v = .ok (l.set i v) := by
  simp [np_put, h]

/-- Helper: the column assignment succeeds when the index is in range of
every row and the assigned vector matches the row count. -/
theorem np_set_column_ok (m : List (List ℚ)) (i : Nat) (v : List ℚ)
    (h1 : ∀ r ∈ m, i < r.length) (h2 : v.length = m.length) :
    np_set_column m i v = .ok ((m.zip v).map (fun p => p.1.set i p.2)) := by
  have hall : (m.all (fun r => decide (i < r.length))) = true := by
    simp only [List.all_eq_true, decide_eq_true_eq]
    exact h1
  simp [np_set_column, hall, h2]

/-- Helper: binding an `ok` value just applies the continuation. -/
theorem except_bind_ok {α β : Type} (a : α) (f : α → Except PyError β) :
    (Except.ok a : Except PyError α) >>= f = f a := rfl

/-- Helper: a cell below the write index survives the in-place write and
the zero-padded growth of its buffer. -/
theorem getD_resize_set {α : Type} (l : List α) (j i n : Nat) (v z : α)
    (hij : i ≠ j) (hi : i < l.length) (hn : l.length ≤ n) :
    (ndarray_resize (l.set j v) n z).getD i z = l.getD i z := by
  unfold ndarray_resize
  rw [List.getD_eq_getElem?_getD, List.getD_eq_getElem?_getD]
  rw [List.getElem?_take, if_pos (lt_of_lt_of_le hi hn)]
  rw [List.getElem?_append_left (by rw [List.length_set]; exact hi)]
  rw [List.getElem?_set_ne (Ne.symm hij)]

/-- Helper: a score-matrix column below the write index survives the
column write and the `hstack` growth of the matrix. -/
theorem map_getD_set_column_grow (m : List (List ℚ)) (v : List ℚ) (j i : Nat)
    (hij : i ≠ j) (hi : ∀ r ∈ m, i < r.length) (hlen : v.length = m.length) :
    (((m.zip v).map (fun p => p.1.set j p.2)).map
        (fun r => (r ++ List.replicate r.length 0).getD i 0))
      = m.map (fun r => r.getD i 0) := by
  induction m generalizing v with
  | nil => simp
  | cons r rest ih =>
      cases v with
      | nil => simp at hlen
      | cons x xs =>
          simp only [List.zip_cons_cons, List.map_cons, List.cons.injEq]
          constructor
          · rw [List.getD_eq_getElem?_getD, List.getD_eq_getElem?_getD]
            rw [List.getElem?_append_left
                  (by rw [List.length_set]; exact hi r (by simp))]
            rw [List.getElem?_set_ne (Ne.symm hij)]
          · exact ih xs (fun q hq => hi q (by simp [hq])) (by simpa using hlen)

/-- C8 (amended): the growth event fires when the recorded count reaches
`s - 1` — one slot before the pre-allocated capacity `s` is exhausted (the
reserved last slot is never written at the old capacity).  When it fires,
every buffer's capacity becomes exactly `2 * s` and every previously
recorded row is retrievable unchanged. -/
theorem C8_growth_doubles_capacity_and_preserves_rows (st : ReportState)
    (params : List (String × Val)) (scores : CVScores) (t : ℚ)
    (hwf : report_wf st) (htrig : st.iter + 2 = st.s)
    (hlen : scores.test_score.length = st.cv) :
    ∃ st', update st params scores t = .ok st'
      ∧ st'.s = 2 * st.s
      ∧ st'.iter = st.iter + 1
      ∧ ∀ i < st.iter, row_unchanged st st' i := by
  obtain ⟨w1, w2, w3, w4, w5, w6, w7, w8, w9⟩ := hwf
  have hit : st.iter < st.s := by omega
  have e1 := np_put_ok st.mean_fit_time st.iter (np_mean scores.fit_time)
    (by rw [w1]; exact hit)
  have e2 := np_put_ok st.std_fit_time st.iter (np_std scores.fit_time)
    (by rw [w2]; exact hit)
  have e3 := np_put_ok st.mean_score_time st.iter (np_mean scores.score_time)
    (by rw [w3]; exact hit)
  have e4 := np_put_ok st.std_score_time st.iter (np_std scores.score_time)
    (by rw [w4]; exact hit)
  have e5 := np_put_ok st.params st.iter (ObjCell.params params)
    (by rw [w5]; exact hit)
  have e6 := np_put_ok st.mean_test_score st.iter (np_mean scores.test_score)
    (by rw [w6]; exact hit)
  have e7 := np_put_ok st.std_test_score st.iter (np_std scores.test_score)
    (by rw [w7]; exact hit)
  have e8 := np_set_column_ok st.test_scores st.iter scores.test_score
    (fun r hr => by rw [w9 r hr]; exact hit) (by rw [hlen, w8])
  have hcond : st.iter + 1 = st.s - 1 := by omega
  refine ⟨report_grow { st with
      mean_fit_time := st.mean_fit_time.set st.iter (np_mean scores.fit_time),
      std_fit_time := st.std_fit_time.set st.iter (np_std scores.fit_time),
      mean_score_time := st.mean_score_time.set st.iter (np_mean scores.score_time),
      std_score_time := st.std_score_time.set st.iter (np_std scores.score_time),
      params := st.params.set st.iter (ObjCell.params params),
      mean_test_score := st.mean_test_score.set st.iter (np_mean scores.test_score),
      std_test_score := st.std_test_score.set st.iter (np_std scores.test_score),
      test_scores := (st.test_scores.zip scores.test_score).map (fun p => p.1.set st.iter p.2),
      iter := st.iter + 1, t := st.t + t }, ?_, ?_, ?_, ?_⟩
  · simp only [update, e1, e2, e3, e4, e5, e6, e7, e8, except_bind_ok]
    rw [if_pos hcond]
    rfl
  · simp [report_grow]
  · simp [report_grow]
  · intro i hi
    have hij : i ≠ st.iter := Nat.ne_of_lt hi
    have hilt : i < st.s := lt_trans hi hit
    refine ⟨?_, ?_, ?_, ?_, ?_, ?_, ?_, ?_⟩
    · exact getD_resize_set _ _ _ _ _ _ hij (by rw [w1]; exact hilt) (by rw [w1]; show st.s ≤ 2 * st.s; omega)
    · exact getD_resize_set _ _ _ _ _ _ hij (by rw [w2]; exact hilt) (by rw [w2]; show st.s ≤ 2 * st.s; omega)
    · exact getD_resize_set _ _ _ _ _ _ hij (by rw [w3]; exact hilt) (by rw [w3]; show st.s ≤ 2 * st.s; omega)
    · exact getD_resize_set _ _ _ _ _ _ hij (by rw [w4]; exact hilt) (by rw [w4]; show st.s ≤ 2 * st.s; omega)
    · exact getD_resize_set _ _ _ _ _ _ hij (by rw [w5]; exact hilt) (by rw [w5]; show st.s ≤ 2 * st.s; omega)
    · exact getD_resize_set _ _ _ _ _ _ hij (by rw [w6]; exact hilt) (by rw [w6]; show st.s ≤ 2 * st.s; omega)
    · exact getD_resize_set _ _ _ _ _ _ hij (by rw [w7]; exact hilt) (by rw [w7]; show st.s ≤ 2 * st.s; omega)
    · show (((st.test_scores.zip scores.test_score).map
              (fun p => p.1.set st.iter p.2)).map
                (fun r => r ++ List.replicate r.length 0)).map (fun r => r.getD i 0)
            = st.test_scores.map (fun r => r.getD i 0)
      rw [List.map_map]
      have := map_getD_set_column_grow st.test_scores scores.test_score st.iter i
        hij (fun r hr => by rw [w9 r hr]; exact hilt) (by rw [hlen, w8])
      simpa [Function.comp] using this

/-- Witness for C8 (amended) at a fresh one-fold accumulator of capacity
2: the very first update triggers the growth (`iter + 2 = s`), the
capacity becomes 4, and the (empty) set of previously recorded rows is
trivially preserved. -/
theorem C8_growth_doubles_capacity_witness :
    ∃ st', update (report_init 1 2 0) (demo_params 0) (demo_scores (1/2)) 1 = .ok st'
      ∧ st'.s = 2 * (report_init 1 2 0).s
      ∧ st'.iter = (report_init 1 2 0).iter + 1
      ∧ ∀ i < (report_init 1 2 0).iter, row_unchanged (report_init 1 2 0) st' i :=
  C8_growth_doubles_capacity_and_preserves_rows (report_init 1 2 0) (demo_params 0)
    (demo_scores (1/2)) 1 (by decide) (by decide) (by decide)

/-- C9: `_check_int` coerces an integral float to the corresponding
integer, passes a non-integral float through unchanged, and returns
values of any other type unchanged. -/
theorem C9_check_int_integral_coercion (q r : ℚ) (n : Int) (s : String)
    (hq : q.den = 1) (hr : r.den ≠ 1) :
    check_int (.float q) = .int q.num ∧ check_int (.float r) = .float r
  ∧ check_int (.int n) = .int n ∧ check_int (.str s) = .str s := by
  refine ⟨?_, ?_, rfl, rfl⟩
  · simp [check_int, hq]
  · simp [check_int, hr]

/-- Witness for C9: `4.0` decodes to the integer `4`, `4.3` stays the
float `4.3`, and an `int` and a `str` are unchanged. -/
theorem C9_check_int_integral_coercion_witness :
    check_int (.float 4) = .int (4 : ℚ).num ∧ check_int (.float (43/10)) = .float (43/10)
  ∧ check_int (.int 7) = .int 7 ∧ check_int (.str "x") = .str "x" :=
  C9_check_int_integral_coercion 4 (43/10) 7 "x" (by with_unfolding_all decide)
    (by with_unfolding_all decide)

end AutOpt
